import Mathlib

/-!
# Verification of the xai-grpc-client conversion and polling layer

Shallow embedding of the hand-written logic of the `xai-grpc-client` Rust
crate: the request builder (`src/request.rs`), the error taxonomy
(`src/error.rs`), the wire adapter and response assembler
(`src/client/conversions.rs`), the tool-call enum translation
(`src/tools.rs`), and the deferred-operation poller
(`src/client/operations.rs`).

Modelling conventions:
* Rust `i32`/`u64` values are modelled as `Int`/`Nat`; the single `as u32`
  cast that occurs is made explicit with a `% 2^32`.
* `f32` values appear in the embedded code only as opaque payloads that are
  passed through unchanged, reinterpreted bit-for-bit from little-endian
  bytes, or compared (in `clamp`).  They are therefore modelled by `F32`,
  a type carrying either a rational magnitude, an infinity, or NaN, with
  IEEE-754 comparison semantics (every comparison involving NaN is false);
  where only bit patterns flow through (embedding vectors) the 32-bit words
  are modelled as `Nat`.
* Fallible Rust code returning `Result` is modelled with `Except GrokError`;
  a Rust `panic!`/`assert!` or a non-exhaustive `match` is modelled with
  `Option` (`none` = the call does not return normally).
* The async poller is modelled by explicit recursion over a finite script
  of wire replies, with elapsed time advanced by the poll interval at every
  sleep (the monotonic-clock reads of the source).
-/

namespace XaiGrpc

/-! ## gRPC status codes (external `tonic` crate)

`tonic::Code` is the standard closed set of 17 gRPC status codes; the
crate under verification only matches on it. -/

inductive TonicCode where
  | ok
  | cancelled
  | unknown
  | invalidArgument
  | deadlineExceeded
  | notFound
  | alreadyExists
  | permissionDenied
  | resourceExhausted
  | failedPrecondition
  | aborted
  | outOfRange
  | unimplemented
  | internal
  | unavailable
  | dataLoss
  | unauthenticated
deriving DecidableEq, Repr

/-! ## Error taxonomy (`src/error.rs`, `enum GrokError`)

`Transport` and `InvalidHeaderValue` wrap external error types and
`Status` wraps `tonic::Status`; only their presence (and for `Status`
the code) is observable by the embedded logic, so they are modelled by
a message string (resp. a code and a message). -/

inductive GrokError where
  | transport (msg : String)
  | status (code : TonicCode) (msg : String)
  | rateLimit (retry_after_secs : Nat)
  | auth (msg : String)
  | invalidRequest (msg : String)
  | config (msg : String)
  | envVar (msg : String)
  | invalidHeaderValue (msg : String)
deriving DecidableEq, Repr

/-- Source `GrokError::is_retryable` (`src/error.rs` lines 77-89): `Transport`
and `RateLimit` are retryable, a `Status` is retryable exactly for the
codes `Unavailable`, `DeadlineExceeded` and `ResourceExhausted`, and
everything else is not. -/
def GrokError.is_retryable : GrokError → Bool
  | .transport _ => true
  | .rateLimit _ => true
  | .status code _ =>
      match code with
      | .unavailable => true
      | .deadlineExceeded => true
      | .resourceExhausted => true
      | _ => false
  | _ => false

/-- Source `GrokError::retry_after` (`src/error.rs` lines 92-97). -/
def GrokError.retry_after : GrokError → Option Nat
  | .rateLimit retry_after_secs => some retry_after_secs
  | _ => none

/-! ## IEEE-754 `f32` comparison model

The embedded code applies `f32::clamp` to builder inputs.  `clamp` is
pure comparison logic (Rust std:
`assert!(min <= max); if self < min { self = min }; if self > max { self = max }; self`),
so the model only needs the IEEE ordering: NaN compares false against
everything, the infinities bound all finite values, and finite values
compare by magnitude (represented as rationals, which is faithful since
no arithmetic is performed). -/

inductive F32 where
  | nan
  | negInf
  | posInf
  | fin (q : ℚ)
deriving DecidableEq, Repr

/-- IEEE-754 `<` on the `F32` model: any comparison with NaN is false. -/
def F32.lt : F32 → F32 → Bool
  | .nan, _ => false
  | _, .nan => false
  | .negInf, .negInf => false
  | .negInf, _ => true
  | _, .negInf => false
  | .posInf, _ => false
  | _, .posInf => true
  | .fin a, .fin b => decide (a < b)

/-- IEEE-754 `<=` on the `F32` model: any comparison with NaN is false. -/
def F32.le : F32 → F32 → Bool
  | .nan, _ => false
  | _, .nan => false
  | .negInf, _ => true
  | _, .negInf => false
  | _, .posInf => true
  | .posInf, _ => false
  | .fin a, .fin b => decide (a ≤ b)

/-- Rust `f32::clamp(self, min, max)`: `if self < min { min }` then
`if result > max { max }` (note `a > b` is IEEE `b < a`).  A NaN input
falls through both comparisons and is returned unchanged. -/
def F32.clamp (x lo hi : F32) : F32 :=
  let x1 := if F32.lt x lo then lo else x
  if F32.lt hi x1 then hi else x1

/-! ## Domain request model (`src/request.rs`) -/

/-- Source `enum ImageDetail` (`src/request.rs`). -/
inductive ImageDetail where
  | auto
  | low
  | high
deriving DecidableEq, Repr

/-- Source `enum ContentPart` (`src/request.rs`): text, image URL with optional
detail level, or file reference. -/
inductive ContentPart where
  | text (s : String)
  | imageUrl (url : String) (detail : Option ImageDetail)
  | file (file_id : String)
deriving DecidableEq, Repr

/-- Source `enum MessageContent` (`src/request.rs`). -/
inductive MessageContent where
  | text (s : String)
  | multiModal (parts : List ContentPart)
deriving DecidableEq, Repr

/-- Source `enum Message` (`src/request.rs` lines 113-136): the four message
variants, including the `Tool` result variant added for multi-turn tool
calling. -/
inductive Message where
  | system (text : String)
  | user (content : MessageContent)
  | assistant (text : String)
  | tool (tool_call_id : String) (content : String)
deriving DecidableEq, Repr

/-- Source `struct ChatRequest` (`src/request.rs`), restricted to the fields the
verified claims are about.  The omitted fields (tools, tool choice,
response format, search, reasoning effort, logprobs, penalties, store
flags, include options, user, previous response id) are orthogonal: every
setter of the source mutates only its own field. -/
structure ChatRequest where
  messages : List Message
  model : Option String
  max_tokens : Option Nat
  temperature : Option F32
  top_p : Option F32
  stop : List String
  seed : Option Int
  max_turns : Option Int
deriving DecidableEq, Repr

/-- Source `ChatRequest::new` / `Default`: all fields empty or unset. -/
def ChatRequest.new : ChatRequest :=
  { messages := []
    model := none
    max_tokens := none
    temperature := none
    top_p := none
    stop := []
    seed := none
    max_turns := none }

/-- Source `ChatRequest::with_temperature` (`src/request.rs` lines 342-345):
stores `temp.clamp(0.0, 2.0)`. -/
def ChatRequest.with_temperature (req : ChatRequest) (temp : F32) : ChatRequest :=
  { req with temperature := some (F32.clamp temp (F32.fin 0) (F32.fin 2)) }

/-- Source `ChatRequest::with_top_p` (`src/request.rs` lines 347-350):
stores `top_p.clamp(0.0, 1.0)`. -/
def ChatRequest.with_top_p (req : ChatRequest) (top_p : F32) : ChatRequest :=
  { req with top_p := some (F32.clamp top_p (F32.fin 0) (F32.fin 1)) }

/-- Source `ChatRequest::with_max_turns` (`src/request.rs` lines 461-468):
`assert!(max_turns >= 1, ...)` then stores `Some(max_turns)`.  The failed
assertion (a Rust panic, i.e. a local programmer error rather than a
remote error) is modelled as `none`. -/
def ChatRequest.with_max_turns (req : ChatRequest) (max_turns : Int) : Option ChatRequest :=
  if max_turns ≥ 1 then some { req with max_turns := some max_turns } else none

/-! ## Response model and finish-reason decoding
(`src/response.rs`, `src/client/conversions.rs`) -/

/-- Source `enum FinishReason` (`src/response.rs` lines 97-110). -/
inductive FinishReason where
  | stop
  | length
  | toolCalls
  | contentFilter
  | error (msg : String)
  | unknown
deriving DecidableEq, Repr

/-- Source `GrokClient::parse_finish_reason_static`
(`src/client/conversions.rs` lines 365-374): the fixed wire-code table
`3 ↦ Stop`, `1 | 2 ↦ Length`, `4 ↦ ToolCalls`,
`5 ↦ Error("Time limit reached")`, anything else `↦ Unknown`. -/
def parse_finish_reason_static (reason : Int) : FinishReason :=
  if reason = 3 then FinishReason.stop
  else if reason = 1 ∨ reason = 2 then FinishReason.length
  else if reason = 4 then FinishReason.toolCalls
  else if reason = 5 then FinishReason.error "Time limit reached"
  else FinishReason.unknown

/-! ## Tool-call enum translation (`src/tools.rs`)

The generated protobuf enums live in `src/generated/xai_api.rs`, which is
produced by `build.rs` from the service proto files and is not part of
`src/`; their numeric wire values are therefore modelled from the spec.
Every verified property depends only on the values being distinct. -/

/-- Modelled from the spec: the generated protobuf enum `ToolCallType`
(invalid/unspecified plus the six tool kinds of the tool-call data
model), assigned the distinct wire integers 0-6. -/
inductive ToolCallType where
  | invalid
  | clientSideTool
  | webSearchTool
  | xSearchTool
  | codeExecutionTool
  | collectionsSearchTool
  | mcpTool
deriving DecidableEq, Repr

/-- Modelled from the spec: wire integer of each `ToolCallType` value
(the Rust `as i32` cast on the generated enum). -/
def ToolCallType.toWire : ToolCallType → Int
  | .invalid => 0
  | .clientSideTool => 1
  | .webSearchTool => 2
  | .xSearchTool => 3
  | .codeExecutionTool => 4
  | .collectionsSearchTool => 5
  | .mcpTool => 6

/-- Modelled from the spec: the generated protobuf enum `ToolCallStatus`
(invalid/unspecified plus in-progress/completed/incomplete/failed),
assigned the distinct wire integers 0-4. -/
inductive ToolCallStatus where
  | invalid
  | inProgress
  | completed
  | incomplete
  | failed
deriving DecidableEq, Repr

/-- Modelled from the spec: wire integer of each `ToolCallStatus` value
(the Rust `as i32` cast on the generated enum). -/
def ToolCallStatus.toWire : ToolCallStatus → Int
  | .invalid => 0
  | .inProgress => 1
  | .completed => 2
  | .incomplete => 3
  | .failed => 4

/-- Source `enum ToolCallKind` (`src/tools.rs` lines 412-427): the domain
tool-call kinds, with an `Unknown` sentinel for unrecognized wire
values. -/
inductive ToolCallKind where
  | clientSideTool
  | webSearchTool
  | xSearchTool
  | codeExecutionTool
  | collectionsSearchTool
  | mcpTool
  | unknown
deriving DecidableEq, Repr

/-- Source `ToolCallKind::from_proto` (`src/tools.rs` lines 430-442): a guard
chain comparing the wire integer against each known `ToolCallType` code,
falling back to `Unknown`. -/
def ToolCallKind.from_proto (value : Int) : ToolCallKind :=
  if value = ToolCallType.clientSideTool.toWire then ToolCallKind.clientSideTool
  else if value = ToolCallType.webSearchTool.toWire then ToolCallKind.webSearchTool
  else if value = ToolCallType.xSearchTool.toWire then ToolCallKind.xSearchTool
  else if value = ToolCallType.codeExecutionTool.toWire then ToolCallKind.codeExecutionTool
  else if value = ToolCallType.collectionsSearchTool.toWire then ToolCallKind.collectionsSearchTool
  else if value = ToolCallType.mcpTool.toWire then ToolCallKind.mcpTool
  else ToolCallKind.unknown

/-- Source `ToolCallKind::to_proto` (`src/tools.rs` lines 444-454). -/
def ToolCallKind.to_proto : ToolCallKind → ToolCallType
  | .clientSideTool => .clientSideTool
  | .webSearchTool => .webSearchTool
  | .xSearchTool => .xSearchTool
  | .codeExecutionTool => .codeExecutionTool
  | .collectionsSearchTool => .collectionsSearchTool
  | .mcpTool => .mcpTool
  | .unknown => .invalid

/-- Source `enum ToolCallStatusKind` (`src/tools.rs` lines 459-468): note the
domain status enum has exactly the four constructors below and no
`Unknown` sentinel. -/
inductive ToolCallStatusKind where
  | inProgress
  | completed
  | incomplete
  | failed
deriving DecidableEq, Repr

/-- Source `ToolCallStatusKind::from_proto` (`src/tools.rs` lines 471-479): a
guard chain over the known `ToolCallStatus` codes whose fallback arm is
`ToolCallStatusKind::InProgress` (the source comments it "default"). -/
def ToolCallStatusKind.from_proto (value : Int) : ToolCallStatusKind :=
  if value = ToolCallStatus.inProgress.toWire then ToolCallStatusKind.inProgress
  else if value = ToolCallStatus.completed.toWire then ToolCallStatusKind.completed
  else if value = ToolCallStatus.incomplete.toWire then ToolCallStatusKind.incomplete
  else if value = ToolCallStatus.failed.toWire then ToolCallStatusKind.failed
  else ToolCallStatusKind.inProgress

/-- Source `ToolCallStatusKind::to_proto` (`src/tools.rs` lines 481-488). -/
def ToolCallStatusKind.to_proto : ToolCallStatusKind → ToolCallStatus
  | .inProgress => .inProgress
  | .completed => .completed
  | .incomplete => .incomplete
  | .failed => .failed

/-- The wire `FunctionCall` sub-message (name plus raw JSON argument
string). -/
structure ProtoFunctionCall where
  name : String
  arguments : String
deriving DecidableEq, Repr

/-- The `tool` oneof of the wire `ToolCall` message; the source only ever
matches the `Function` case. -/
inductive ProtoToolCallTool where
  | function (f : ProtoFunctionCall)
deriving DecidableEq, Repr

/-- The wire `ToolCall` message as consumed by `ToolCall::from_proto`. -/
structure ProtoToolCall where
  id : String
  type : Int
  status : Int
  error_message : Option String
  tool : Option ProtoToolCallTool
deriving DecidableEq, Repr

/-- Source `struct FunctionCall` (`src/tools.rs` lines 493-498). -/
structure FunctionCall where
  name : String
  arguments : String
deriving DecidableEq, Repr

/-- Source `struct ToolCall` (`src/tools.rs` lines 363-374). -/
structure ToolCall where
  id : String
  call_type : ToolCallKind
  status : ToolCallStatusKind
  error_message : Option String
  function : FunctionCall
deriving DecidableEq, Repr

/-- Source `ToolCall::from_proto` (`src/tools.rs` lines 378-393): `proto.tool?`
makes the whole conversion `None` when the oneof is absent. -/
def ToolCall.from_proto (proto : ProtoToolCall) : Option ToolCall :=
  match proto.tool with
  | none => none
  | some (ProtoToolCallTool.function f) =>
      some { id := proto.id
             call_type := ToolCallKind.from_proto proto.type
             status := ToolCallStatusKind.from_proto proto.status
             error_message := proto.error_message
             function := { name := f.name, arguments := f.arguments } }

/-! ## Wire response model and response assembly
(`src/client/conversions.rs`, `proto_to_response`)

`f64` log-probability values are only copied from the wire message into
the domain response, never inspected, so they are modelled by their
64-bit patterns as `Nat`. -/

/-- Wire `TopLogProb` entry. -/
structure ProtoTopLogProb where
  token : String
  logprob : Nat
  bytes : List Nat
deriving DecidableEq, Repr

/-- Wire per-token log-probability entry. -/
structure ProtoLogProbEntry where
  token : String
  logprob : Nat
  bytes : List Nat
  top_logprobs : List ProtoTopLogProb
deriving DecidableEq, Repr

/-- Wire `LogProbs` sub-message. -/
structure ProtoLogProbs where
  content : List ProtoLogProbEntry
deriving DecidableEq, Repr

/-- Wire completion message body: generated content, reasoning trace
(empty string when absent on the wire) and tool calls. -/
structure ProtoCompletionMessage where
  content : String
  reasoning_content : String
  tool_calls : List ProtoToolCall
deriving DecidableEq, Repr

/-- Wire completion output: optional message body, finish-reason wire
code, optional log-probabilities. -/
structure ProtoCompletionOutput where
  message : Option ProtoCompletionMessage
  finish_reason : Int
  logprobs : Option ProtoLogProbs
deriving DecidableEq, Repr

/-- Wire usage counters (`i32` on the wire). -/
structure ProtoUsage where
  prompt_tokens : Int
  completion_tokens : Int
  total_tokens : Int
deriving DecidableEq, Repr

/-- Source `prost_types::Timestamp`, of which only `seconds` is read. -/
structure ProtoTimestamp where
  seconds : Int
deriving DecidableEq, Repr

/-- Wire `GetChatCompletionResponse`, restricted to the fields read by
`proto_to_response`. -/
structure GetChatCompletionResponse where
  id : String
  model : String
  outputs : List ProtoCompletionOutput
  usage : Option ProtoUsage
  created : Option ProtoTimestamp
  system_fingerprint : String
  citations : List String
deriving DecidableEq, Repr

/-- The Rust `as u32` cast on an `i32` value: twos-complement
reinterpretation, i.e. reduction modulo `2^32`. -/
def castU32 (i : Int) : Nat := (i % 4294967296).toNat

/-- Source `struct TokenUsage` (`src/response.rs`); `Default` is all zeroes. -/
structure TokenUsage where
  prompt_tokens : Nat
  completion_tokens : Nat
  total_tokens : Nat
deriving DecidableEq, Repr

/-- Source `struct TopLogProb` (`src/response.rs`). -/
structure TopLogProb where
  token : String
  logprob : Nat
  bytes : List Nat
deriving DecidableEq, Repr

/-- Source `struct LogProb` (`src/response.rs`). -/
structure LogProb where
  token : String
  logprob : Nat
  bytes : List Nat
  top_logprobs : List TopLogProb
deriving DecidableEq, Repr

/-- Source `struct LogProbs` (`src/response.rs`). -/
structure LogProbs where
  content : List LogProb
deriving DecidableEq, Repr

/-- The field-by-field copy of a wire `LogProbs` sub-message performed
inline in `proto_to_response` (`src/client/conversions.rs` lines
239-258). -/
def convert_logprobs (lp : ProtoLogProbs) : LogProbs :=
  { content := lp.content.map fun log_prob =>
      { token := log_prob.token
        logprob := log_prob.logprob
        bytes := log_prob.bytes
        top_logprobs := log_prob.top_logprobs.map fun top =>
          { token := top.token, logprob := top.logprob, bytes := top.bytes } } }

/-- Source `struct ChatResponse` (`src/response.rs`), with exactly the fields
assembled by `proto_to_response`. -/
structure ChatResponse where
  request_id : String
  content : String
  finish_reason : FinishReason
  model : String
  usage : TokenUsage
  citations : List String
  tool_calls : List ToolCall
  reasoning_content : Option String
  logprobs : Option LogProbs
  created : Option Int
  system_fingerprint : Option String
deriving DecidableEq, Repr

/-- Source `GrokClient::proto_to_response` (`src/client/conversions.rs` lines
197-283): fails with "Response has no outputs" when the outputs list is
empty, with "Output has no message" when the first output has no message
body, and otherwise assembles the domain response, normalising empty-string
reasoning content and system fingerprint to `none` and defaulting absent
usage to zeroes. -/
def proto_to_response (proto : GetChatCompletionResponse) : Except GrokError ChatResponse :=
  match proto.outputs.head? with
  | none => Except.error (GrokError.invalidRequest "Response has no outputs")
  | some output =>
    match output.message with
    | none => Except.error (GrokError.invalidRequest "Output has no message")
    | some message =>
      Except.ok
        { request_id := proto.id
          content := message.content
          finish_reason := parse_finish_reason_static output.finish_reason
          model := proto.model
          usage :=
            (proto.usage.map fun u =>
              { prompt_tokens := castU32 u.prompt_tokens
                completion_tokens := castU32 u.completion_tokens
                total_tokens := castU32 u.total_tokens }).getD ⟨0, 0, 0⟩
          citations := proto.citations
          tool_calls := message.tool_calls.filterMap ToolCall.from_proto
          reasoning_content :=
            if message.reasoning_content = "" then none
            else some message.reasoning_content
          logprobs := output.logprobs.map convert_logprobs
          created := proto.created.map ProtoTimestamp.seconds
          system_fingerprint :=
            if proto.system_fingerprint = "" then none
            else some proto.system_fingerprint }

/-! ## Wire adapter, request direction (`src/client/conversions.rs`) -/

/-- Modelled from the spec: wire integers of the generated protobuf enum
`MessageRole` (generated code absent from `src/`); only distinctness is
relied upon. -/
def MessageRole.roleSystem : Int := 1

/-- Modelled from the spec: wire integer of the user role. -/
def MessageRole.roleUser : Int := 2

/-- Modelled from the spec: wire integer of the assistant role. -/
def MessageRole.roleAssistant : Int := 3

/-- Modelled from the spec: wire integers of the generated protobuf enum
`ImageDetail` (auto/low/high); only distinctness is relied upon. -/
def ImageDetailWire.detailAuto : Int := 0

/-- Modelled from the spec: wire integer of the low detail level. -/
def ImageDetailWire.detailLow : Int := 1

/-- Modelled from the spec: wire integer of the high detail level. -/
def ImageDetailWire.detailHigh : Int := 2

/-- The `content` oneof of the wire `Content` message. -/
inductive ProtoContentOneof where
  | text (s : String)
  | imageUrl (image_url : String) (detail : Int)
  | file (file_id : String)
deriving DecidableEq, Repr

/-- Wire `Content` message (an optional oneof). -/
structure ProtoContent where
  content : Option ProtoContentOneof
deriving DecidableEq, Repr

/-- Wire `Message`: role code and ordered content parts. -/
structure ProtoMessage where
  role : Int
  content : List ProtoContent
deriving DecidableEq, Repr

/-- Source `GrokClient::message_content_to_proto` (`src/client/conversions.rs`
lines 159-195): text maps to a single text part; multimodal content maps
each part in order, with a missing image detail defaulting to the wire
auto value. -/
def message_content_to_proto : MessageContent → List ProtoContent
  | MessageContent.text t => [{ content := some (ProtoContentOneof.text t) }]
  | MessageContent.multiModal parts =>
      parts.map fun part =>
        match part with
        | ContentPart.text t => { content := some (ProtoContentOneof.text t) }
        | ContentPart.imageUrl url detail =>
            let detail_value :=
              match detail with
              | some ImageDetail.auto => ImageDetailWire.detailAuto
              | some ImageDetail.low => ImageDetailWire.detailLow
              | some ImageDetail.high => ImageDetailWire.detailHigh
              | none => ImageDetailWire.detailAuto
            { content := some (ProtoContentOneof.imageUrl url detail_value) }
        | ContentPart.file file_id =>
            { content := some (ProtoContentOneof.file file_id) }

/-- Source `GrokClient::message_to_proto` (`src/client/conversions.rs` lines
132-157).  The source `match` has arms for `Message::System`,
`Message::User` and `Message::Assistant` only; the four-variant `Message`
enum of `src/request.rs` also has `Message::Tool`, for which the match
has no arm, so the conversion is undefined there (a non-exhaustive match
— the crate as shipped does not even typecheck).  The missing arm is
modelled as `none`. -/
def message_to_proto : Message → Option ProtoMessage
  | Message.system text =>
      some { role := MessageRole.roleSystem
             content := [{ content := some (ProtoContentOneof.text text) }] }
  | Message.user content =>
      some { role := MessageRole.roleUser
             content := message_content_to_proto content }
  | Message.assistant text =>
      some { role := MessageRole.roleAssistant
             content := [{ content := some (ProtoContentOneof.text text) }] }
  | Message.tool _ _ => none

/-- The message-list portion of `GrokClient::to_proto_request`
(`src/client/conversions.rs` lines 16-20): every message of the request
is converted by `message_to_proto`; the collection is undefined as soon
as any single conversion is. -/
def to_proto_request_messages (msgs : List Message) : Option (List ProtoMessage) :=
  msgs.mapM message_to_proto

/-! ## Embedding vector decoding
(`src/client/conversions.rs`, `proto_to_embed_response` and
`decode_base64_embedding`)

Bytes are modelled as `Nat` values below 256 and the decoded `f32`
values by their 32-bit little-endian patterns, faithful because the
source only reinterprets raw bytes (`f32::from_le_bytes`) and never
computes with the floats. -/

/-- Value of one character of the RFC 4648 standard base64 alphabet
(`A`-`Z`, `a`-`z`, `0`-`9`, `+`, `/`), the alphabet of the external
crate `base64::engine::general_purpose::STANDARD`. -/
def b64DecodeChar (c : Char) : Option Nat :=
  if 'A' ≤ c ∧ c ≤ 'Z' then some (c.toNat - 65)
  else if 'a' ≤ c ∧ c ≤ 'z' then some (c.toNat - 97 + 26)
  else if '0' ≤ c ∧ c ≤ '9' then some (c.toNat - 48 + 52)
  else if c = '+' then some 62
  else if c = '/' then some 63
  else none

/-- Four-character-block base64 decoding with mandatory canonical
padding, the strict decode behavior of
`base64::engine::general_purpose::STANDARD`: the final block may end in
one or two `=` characters, non-zero trailing bits and any input whose
length is not a multiple of four are rejected. -/
def b64DecodeBlocks : List Char → Option (List Nat)
  | [] => some []
  | c1 :: c2 :: c3 :: c4 :: rest =>
      match b64DecodeChar c1, b64DecodeChar c2 with
      | some v1, some v2 =>
        if c3 = '=' then
          if c4 = '=' ∧ rest = [] ∧ v2 % 16 = 0 then
            some [v1 * 4 + v2 / 16]
          else none
        else
          match b64DecodeChar c3 with
          | some v3 =>
            if c4 = '=' then
              if rest = [] ∧ v3 % 4 = 0 then
                some [v1 * 4 + v2 / 16, v2 % 16 * 16 + v3 / 4]
              else none
            else
              match b64DecodeChar c4 with
              | some v4 =>
                match b64DecodeBlocks rest with
                | some tail =>
                    some ((v1 * 4 + v2 / 16) :: (v2 % 16 * 16 + v3 / 4) ::
                          (v3 % 4 * 64 + v4) :: tail)
                | none => none
              | none => none
          | none => none
      | _, _ => none
  | _ => none

/-- External `base64::engine::general_purpose::STANDARD.decode` on a string. -/
def base64_standard_decode (s : String) : Option (List Nat) :=
  b64DecodeBlocks s.data

/-- The `chunks_exact(4)` / `f32::from_le_bytes` reinterpretation of
`decode_base64_embedding`: each exact little-endian 4-byte chunk becomes
the 32-bit pattern of one float (`chunks_exact` drops a shorter
remainder, which the `% 4` check has already ruled out when this
runs). -/
def le_words : List Nat → List Nat
  | b0 :: b1 :: b2 :: b3 :: rest =>
      (b0 + 256 * b1 + 65536 * b2 + 16777216 * b3) :: le_words rest
  | _ => []

/-- Source `GrokClient::decode_base64_embedding` (`src/client/conversions.rs`
lines 456-479): base64-decode (the source formats the decode error
cause into its message; the model keeps the fixed prefix), fail with the
structured "not divisible by 4" error when the byte count is not a
multiple of four, otherwise reinterpret as little-endian 32-bit
floats. -/
def decode_base64_embedding (base64_str : String) : Except GrokError (List Nat) :=
  match base64_standard_decode base64_str with
  | none => Except.error (GrokError.invalidRequest "invalid base64 embedding")
  | some decoded =>
      if decoded.length % 4 ≠ 0 then
        Except.error (GrokError.invalidRequest "embedding byte length not divisible by 4")
      else
        Except.ok (le_words decoded)

/-- Wire feature vector of an embedding: a float array (the 32-bit
patterns) and a base64 byte string, of which exactly one is expected to
be non-empty. -/
structure FeatureVector where
  float_array : List Nat
  base64_array : String
deriving DecidableEq, Repr

/-- Wire per-input embedding message: index plus feature vectors. -/
structure ProtoEmbedding where
  index : Int
  embeddings : List FeatureVector
deriving DecidableEq, Repr

/-- The per-feature-vector selection logic of
`GrokClient::proto_to_embed_response` (`src/client/conversions.rs` lines
430-438): a non-empty float array is used directly; otherwise a
non-empty base64 string is decoded; otherwise the structured
neither-representation error is raised. -/
def embedding_vector (fv : FeatureVector) : Except GrokError (List Nat) :=
  if fv.float_array ≠ [] then Except.ok fv.float_array
  else if fv.base64_array ≠ "" then decode_base64_embedding fv.base64_array
  else Except.error (GrokError.invalidRequest "embedding had neither float nor base64 array")

/-- The Rust `as usize` cast on an `i32` value (64-bit target):
twos-complement reinterpretation, i.e. reduction modulo `2^64`. -/
def castUsize (i : Int) : Nat := (i % 18446744073709551616).toNat

/-- Domain `Embedding` (`src/embedding.rs`): index and decoded vector. -/
structure Embedding where
  index : Nat
  vector : List Nat
deriving DecidableEq, Repr

/-- The per-embedding step of `GrokClient::proto_to_embed_response`
(`src/client/conversions.rs` lines 423-444): take the first feature
vector, failing with the structured "missing embedding vector" error
when there is none, then select and decode its representation. -/
def embed_one (emb : ProtoEmbedding) : Except GrokError Embedding :=
  match emb.embeddings.head? with
  | none => Except.error (GrokError.invalidRequest "missing embedding vector")
  | some fv =>
      match embedding_vector fv with
      | Except.ok vector => Except.ok { index := castUsize emb.index, vector := vector }
      | Except.error e => Except.error e

/-- The embeddings portion of `GrokClient::proto_to_embed_response`
(`src/client/conversions.rs` lines 420-445): the fallible collect over
all wire embeddings (the surrounding copy of id, model, usage and
fingerprint into the domain response is a field-by-field clone). -/
def proto_to_embed_vectors (embeddings : List ProtoEmbedding) : Except GrokError (List Embedding) :=
  embeddings.mapM embed_one

/-! ## Deferred-operation poller (`src/client/operations.rs`) -/

/-- Modelled from the spec: the generated protobuf enum `DeferredStatus`
(generated code absent from `src/`; the poller state machine of the spec is
`Started → {Pending, Done, Expired, Invalid}`), assigned the distinct
wire integers 0-3.  The verified properties depend only on the codes
being distinct. -/
inductive DeferredStatus where
  | invalidDeferredStatus
  | pending
  | done
  | expired
deriving DecidableEq, Repr

/-- Modelled from the spec: wire integer of each `DeferredStatus`
value. -/
def DeferredStatus.toWire : DeferredStatus → Int
  | .invalidDeferredStatus => 0
  | .pending => 1
  | .done => 2
  | .expired => 3

/-- the prost-generated `DeferredStatus::try_from`: succeeds exactly on
the known wire codes. -/
def DeferredStatus.tryFrom (v : Int) : Option DeferredStatus :=
  if v = 0 then some DeferredStatus.invalidDeferredStatus
  else if v = 1 then some DeferredStatus.pending
  else if v = 2 then some DeferredStatus.done
  else if v = 3 then some DeferredStatus.expired
  else none

/-- Wire reply body of one `get_deferred_completion` RPC: status code
plus optional completion payload. -/
structure GetDeferredResponse where
  status : Int
  response : Option GetChatCompletionResponse
deriving DecidableEq, Repr

/-- Source `GrokClient::poll_deferred` (`src/client/operations.rs` lines
59-94), as a function of the wire reply body:
`DeferredStatus::try_from(status).unwrap_or(InvalidDeferredStatus)`,
then `Done` with a payload assembles it (propagating assembly errors),
`Done` without a payload is the structured protocol-contract-violation
error, `Pending` is `Ok(None)`, and `Expired` and the invalid/unknown
status are structured terminal errors. -/
def poll_deferred (reply : GetDeferredResponse) : Except GrokError (Option ChatResponse) :=
  match (DeferredStatus.tryFrom reply.status).getD DeferredStatus.invalidDeferredStatus with
  | DeferredStatus.done =>
      match reply.response with
      | some completion_response =>
          match proto_to_response completion_response with
          | Except.ok r => Except.ok (some r)
          | Except.error e => Except.error e
      | none =>
          Except.error (GrokError.invalidRequest
            "Deferred request marked as done but no response")
  | DeferredStatus.pending => Except.ok none
  | DeferredStatus.expired =>
      Except.error (GrokError.invalidRequest "Deferred request has expired")
  | DeferredStatus.invalidDeferredStatus =>
      Except.error (GrokError.invalidRequest "Invalid deferred status")

/-- Result of a `wait_for_deferred` run over a finite script of wire
replies: the returned response, the surfaced error, or exhaustion of the
script while still pending and within the deadline. -/
inductive WaitOutcome where
  | success (response : ChatResponse)
  | failure (e : GrokError)
  | scriptExhausted
deriving DecidableEq, Repr

/-- Source `GrokClient::wait_for_deferred` (`src/client/operations.rs` lines
98-120) as a function of the scripted wire replies, with durations in
abstract monotonic-clock ticks: before each poll the elapsed time is
checked against the timeout (`start.elapsed() > timeout` fails with the
structured "timed out" error); a pending poll sleeps `poll_interval` and
repeats; a successful or failed poll returns immediately.  Alongside the
outcome the model counts the polls issued and the sleeps performed. -/
def wait_for_deferred_from (script : List GetDeferredResponse)
    (poll_interval timeout elapsed : Nat) : WaitOutcome × Nat × Nat :=
  if elapsed > timeout then
    (WaitOutcome.failure (GrokError.invalidRequest "Deferred request timed out"), 0, 0)
  else
    match script with
    | [] => (WaitOutcome.scriptExhausted, 0, 0)
    | reply :: rest =>
        match poll_deferred reply with
        | Except.error e => (WaitOutcome.failure e, 1, 0)
        | Except.ok (some response) => (WaitOutcome.success response, 1, 0)
        | Except.ok none =>
            let r := wait_for_deferred_from rest poll_interval timeout
              (elapsed + poll_interval)
            (r.1, r.2.1 + 1, r.2.2 + 1)

/-- Source `wait_for_deferred` starts with zero elapsed time
(`let start = Instant::now()`). -/
def wait_for_deferred (script : List GetDeferredResponse)
    (poll_interval timeout : Nat) : WaitOutcome × Nat × Nat :=
  wait_for_deferred_from script poll_interval timeout 0

/-- A wire reply carrying the `Pending` status and, per the wire
contract for pending operations, no payload. -/
def pendingReply : GetDeferredResponse :=
  { status := DeferredStatus.pending.toWire, response := none }

/-- A wire reply carrying the `Done` status and a completion payload. -/
def doneReply (cr : GetChatCompletionResponse) : GetDeferredResponse :=
  { status := DeferredStatus.done.toWire, response := some cr }

/-- A wire reply carrying the `Expired` status. -/
def expiredReply : GetDeferredResponse :=
  { status := DeferredStatus.expired.toWire, response := none }

/-- A concrete well-formed wire completion payload (one output with a
message body, every optional sub-field absent), used to instantiate the
poller theorems. -/
def sampleCompletion : GetChatCompletionResponse :=
  { id := "r3"
    model := "m"
    outputs := [{ message := some { content := "hi", reasoning_content := "",
                                    tool_calls := [] }
                  finish_reason := 3
                  logprobs := none }]
    usage := none
    created := none
    system_fingerprint := ""
    citations := [] }

/-- The domain response `sampleCompletion` assembles to. -/
def sampleResponse : ChatResponse :=
  { request_id := "r3"
    content := "hi"
    finish_reason := FinishReason.stop
    model := "m"
    usage := ⟨0, 0, 0⟩
    citations := []
    tool_calls := []
    reasoning_content := none
    logprobs := none
    created := none
    system_fingerprint := none }

end XaiGrpc

namespace XaiGrpc

/-! ## Theorems -/

/-- C5: finish-reason decoding is a pure total function over all wire
integers matching the fixed table; the "time limit" wire code 5 maps to
the `Error` variant carrying the fixed string "Time limit reached"; every
code outside the table, positive or negative, decodes to the `Unknown`
sentinel (and the function, being total, never raises). -/
theorem finish_reason_table_total :
    parse_finish_reason_static 3 = FinishReason.stop ∧
    parse_finish_reason_static 1 = FinishReason.length ∧
    parse_finish_reason_static 2 = FinishReason.length ∧
    parse_finish_reason_static 4 = FinishReason.toolCalls ∧
    parse_finish_reason_static 5 = FinishReason.error "Time limit reached" ∧
    ∀ reason : Int, reason ∉ ([1, 2, 3, 4, 5] : List Int) →
      parse_finish_reason_static reason = FinishReason.unknown := by
  refine ⟨rfl, rfl, rfl, rfl, rfl, ?_⟩
  intro reason h
  simp only [List.mem_cons, List.not_mem_nil, or_false, not_or] at h
  obtain ⟨h1, h2, h3, h4, h5⟩ := h
  simp [parse_finish_reason_static, h1, h2, h3, h4, h5]

/-- C5 witness: the table evaluated at the in-table code 3 and at the
out-of-table codes 0, 6 and -7. -/
theorem finish_reason_table_total_witness :
    parse_finish_reason_static 3 = FinishReason.stop ∧
    parse_finish_reason_static 0 = FinishReason.unknown ∧
    parse_finish_reason_static 6 = FinishReason.unknown ∧
    parse_finish_reason_static (-7) = FinishReason.unknown :=
  ⟨finish_reason_table_total.1,
   finish_reason_table_total.2.2.2.2.2 0 (by decide),
   finish_reason_table_total.2.2.2.2.2 6 (by decide),
   finish_reason_table_total.2.2.2.2.2 (-7) (by decide)⟩

/-- C9: `with_max_turns` fails the precondition check (panics, a local
programmer error modelled as `none`) exactly when the argument is below
1; for every `v ≥ 1` it succeeds and the stored `max_turns` round-trips
to `v` through the getter. -/
theorem with_max_turns_precondition (req : ChatRequest) (v : Int) :
    (v < 1 → req.with_max_turns v = none) ∧
    (1 ≤ v → ∃ req2, req.with_max_turns v = some req2 ∧ req2.max_turns = some v) := by
  constructor
  · intro hv
    simp [ChatRequest.with_max_turns, not_le.mpr hv]
  · intro hv
    refine ⟨{ req with max_turns := some v }, ?_, rfl⟩
    simp [ChatRequest.with_max_turns, hv]

/-- C9 witness: `with_max_turns 0` and `with_max_turns (-1)` on the fresh
request both fail the check, while `with_max_turns 1` succeeds and stores
`some 1`. -/
theorem with_max_turns_precondition_witness :
    ChatRequest.new.with_max_turns 0 = none ∧
    ChatRequest.new.with_max_turns (-1) = none ∧
    ∃ req2, ChatRequest.new.with_max_turns 1 = some req2 ∧ req2.max_turns = some 1 :=
  ⟨(with_max_turns_precondition ChatRequest.new 0).1 (by decide),
   (with_max_turns_precondition ChatRequest.new (-1)).1 (by decide),
   (with_max_turns_precondition ChatRequest.new 1).2 (by decide)⟩

/-- C10: `is_retryable` returns `true` exactly for transport failures,
rate-limit errors, and remote-status errors whose code is `Unavailable`,
`DeadlineExceeded` or `ResourceExhausted`; it returns `false` for every
other error (authentication, invalid-request, configuration, missing
credential, invalid header, and statuses with any other code). -/
theorem is_retryable_characterisation (e : GrokError) :
    e.is_retryable = true ↔
      (∃ m, e = GrokError.transport m) ∨
      (∃ s, e = GrokError.rateLimit s) ∨
      (∃ c m, e = GrokError.status c m ∧
        (c = TonicCode.unavailable ∨ c = TonicCode.deadlineExceeded ∨
         c = TonicCode.resourceExhausted)) := by
  cases e with
  | transport m => simp [GrokError.is_retryable]
  | rateLimit s => simp [GrokError.is_retryable]
  | status c m =>
      cases c <;> simp [GrokError.is_retryable]
  | auth m => simp [GrokError.is_retryable]
  | invalidRequest m => simp [GrokError.is_retryable]
  | config m => simp [GrokError.is_retryable]
  | envVar m => simp [GrokError.is_retryable]
  | invalidHeaderValue m => simp [GrokError.is_retryable]

/-- C10 witness: the characterisation applied at concrete errors — a
rate-limit error and an unavailable-status error are retryable, an
authentication error is not. -/
theorem is_retryable_characterisation_witness :
    GrokError.is_retryable (GrokError.rateLimit 60) = true ∧
    GrokError.is_retryable (GrokError.status TonicCode.unavailable "down") = true ∧
    GrokError.is_retryable (GrokError.auth "invalid api key") ≠ true :=
  ⟨(is_retryable_characterisation (GrokError.rateLimit 60)).mpr
      (Or.inr (Or.inl ⟨60, rfl⟩)),
   (is_retryable_characterisation (GrokError.status TonicCode.unavailable "down")).mpr
      (Or.inr (Or.inr ⟨TonicCode.unavailable, "down", rfl, Or.inl rfl⟩)),
   fun h => by
     have h2 := (is_retryable_characterisation (GrokError.auth "invalid api key")).mp h
     rcases h2 with ⟨m, hm⟩ | ⟨s, hs⟩ | ⟨c, m, hc, -⟩
     · exact absurd hm (by simp)
     · exact absurd hs (by simp)
     · exact absurd hc (by simp)⟩

/-- C3: response assembly fails with the structured "Response has no
outputs" invalid-response error when the outputs list is empty, with the
structured "Output has no message" error when the first output lacks a
message body, and in every other case (whatever the optional usage,
timestamp, logprobs, reasoning or fingerprint fields hold) it succeeds —
no absent optional sub-field makes it fail. -/
theorem response_assembly_validation (proto : GetChatCompletionResponse) :
    (proto.outputs = [] →
      proto_to_response proto =
        Except.error (GrokError.invalidRequest "Response has no outputs")) ∧
    (∀ output rest, proto.outputs = output :: rest → output.message = none →
      proto_to_response proto =
        Except.error (GrokError.invalidRequest "Output has no message")) ∧
    (∀ output rest message, proto.outputs = output :: rest →
      output.message = some message →
      ∃ r, proto_to_response proto = Except.ok r) := by
  refine ⟨?_, ?_, ?_⟩
  · intro h
    simp [proto_to_response, h]
  · intro output rest houts hmsg
    simp [proto_to_response, houts, hmsg]
  · intro output rest message houts hmsg
    simp only [proto_to_response, houts, List.head?_cons, hmsg]
    exact ⟨_, rfl⟩

/-- C3 witness: the three cases of `response_assembly_validation`
evaluated on concrete wire messages — an empty outputs list, one output
with no message body, and one output with a message body but every
optional sub-field absent. -/
theorem response_assembly_validation_witness :
    proto_to_response
        { id := "r1", model := "m", outputs := [], usage := none,
          created := none, system_fingerprint := "", citations := [] } =
      Except.error (GrokError.invalidRequest "Response has no outputs") ∧
    proto_to_response
        { id := "r2", model := "m",
          outputs := [{ message := none, finish_reason := 3, logprobs := none }],
          usage := none, created := none, system_fingerprint := "",
          citations := [] } =
      Except.error (GrokError.invalidRequest "Output has no message") ∧
    ∃ r, proto_to_response
        { id := "r3", model := "m",
          outputs := [{ message := some { content := "hi",
                                          reasoning_content := "",
                                          tool_calls := [] },
                        finish_reason := 3, logprobs := none }],
          usage := none, created := none, system_fingerprint := "",
          citations := [] } = Except.ok r :=
  ⟨(response_assembly_validation _).1 rfl,
   (response_assembly_validation _).2.1 _ _ rfl rfl,
   (response_assembly_validation _).2.2 _ _ _ rfl rfl⟩

/-- C4 (failing evaluation): the request-direction wire adapter is not
total over the four `Message` variants — the source `match` of
`message_to_proto` has no arm for `Message::Tool`, so converting a tool
result message (and hence any `ChatRequest` whose message list contains
one, such as the documented
`ChatRequest::new().user_message(..).tool_result("call_1", ..)`) is
undefined, while the other three variants all convert. -/
theorem message_to_proto_not_total_on_tool :
    message_to_proto (Message.tool "call_1" "\x7b\x7d") = none ∧
    to_proto_request_messages
        [Message.user (MessageContent.text "What is the weather?"),
         Message.tool "call_1" "\x7b\x7d"] = none ∧
    (message_to_proto (Message.system "s")).isSome = true ∧
    (message_to_proto (Message.user (MessageContent.text "u"))).isSome = true ∧
    (message_to_proto (Message.assistant "a")).isSome = true := by
  refine ⟨rfl, ?_, rfl, rfl, rfl⟩
  decide

/-- C6 counterexample: decoding the unrecognized tool-call status wire
code 999 yields `ToolCallStatusKind::InProgress` — the very same value
as decoding the valid in-progress code 1 — not a dedicated "Unknown"
sentinel (the domain status enum has no such variant), refuting the
claim for the tool-call status enum. -/
theorem status_decode_no_unknown_sentinel :
    ToolCallStatusKind.from_proto 999 = ToolCallStatusKind.inProgress ∧
    ToolCallStatusKind.from_proto 1 = ToolCallStatusKind.inProgress := by
  constructor <;> rfl

/-- C6 amended: decoding response enums from wire integers is total and
never fails; an unrecognized tool-call kind decodes to the `Unknown`
sentinel, while an unrecognized tool-call status decodes to the
`InProgress` default (the status enum has no Unknown variant); all
recognized codes follow the tables. -/
theorem enum_decode_forward_compatible :
    (∀ v : Int,
        v ∉ ([ToolCallType.clientSideTool.toWire, ToolCallType.webSearchTool.toWire,
              ToolCallType.xSearchTool.toWire, ToolCallType.codeExecutionTool.toWire,
              ToolCallType.collectionsSearchTool.toWire, ToolCallType.mcpTool.toWire] :
              List Int) →
        ToolCallKind.from_proto v = ToolCallKind.unknown) ∧
    ToolCallKind.from_proto ToolCallType.clientSideTool.toWire = ToolCallKind.clientSideTool ∧
    ToolCallKind.from_proto ToolCallType.webSearchTool.toWire = ToolCallKind.webSearchTool ∧
    ToolCallKind.from_proto ToolCallType.xSearchTool.toWire = ToolCallKind.xSearchTool ∧
    ToolCallKind.from_proto ToolCallType.codeExecutionTool.toWire = ToolCallKind.codeExecutionTool ∧
    ToolCallKind.from_proto ToolCallType.collectionsSearchTool.toWire = ToolCallKind.collectionsSearchTool ∧
    ToolCallKind.from_proto ToolCallType.mcpTool.toWire = ToolCallKind.mcpTool ∧
    (∀ v : Int,
        v ∉ ([ToolCallStatus.inProgress.toWire, ToolCallStatus.completed.toWire,
              ToolCallStatus.incomplete.toWire, ToolCallStatus.failed.toWire] : List Int) →
        ToolCallStatusKind.from_proto v = ToolCallStatusKind.inProgress) ∧
    ToolCallStatusKind.from_proto ToolCallStatus.inProgress.toWire = ToolCallStatusKind.inProgress ∧
    ToolCallStatusKind.from_proto ToolCallStatus.completed.toWire = ToolCallStatusKind.completed ∧
    ToolCallStatusKind.from_proto ToolCallStatus.incomplete.toWire = ToolCallStatusKind.incomplete ∧
    ToolCallStatusKind.from_proto ToolCallStatus.failed.toWire = ToolCallStatusKind.failed := by
  refine ⟨?_, rfl, rfl, rfl, rfl, rfl, rfl, ?_, rfl, rfl, rfl, rfl⟩
  · intro v h
    simp only [List.mem_cons, List.not_mem_nil, or_false, not_or] at h
    obtain ⟨h1, h2, h3, h4, h5, h6⟩ := h
    simp [ToolCallKind.from_proto, h1, h2, h3, h4, h5, h6]
  · intro v h
    simp only [List.mem_cons, List.not_mem_nil, or_false, not_or] at h
    obtain ⟨h1, h2, h3, h4⟩ := h
    simp [ToolCallStatusKind.from_proto, h1, h2, h3, h4]

/-- C6 witness: the fallbacks of `enum_decode_forward_compatible`
evaluated at the concrete out-of-table codes 0 and -5. -/
theorem enum_decode_forward_compatible_witness :
    ToolCallKind.from_proto 0 = ToolCallKind.unknown ∧
    ToolCallKind.from_proto (-5) = ToolCallKind.unknown ∧
    ToolCallStatusKind.from_proto 0 = ToolCallStatusKind.inProgress ∧
    ToolCallStatusKind.from_proto (-5) = ToolCallStatusKind.inProgress :=
  ⟨enum_decode_forward_compatible.1 0 (by decide),
   enum_decode_forward_compatible.1 (-5) (by decide),
   enum_decode_forward_compatible.2.2.2.2.2.2.2.1 0 (by decide),
   enum_decode_forward_compatible.2.2.2.2.2.2.2.1 (-5) (by decide)⟩

/-- C2: for every wire embedding feature vector — a non-empty float
array is returned exactly as carried; an empty float array with a
non-empty base64 string is base64-decoded and reinterpreted as
little-endian 32-bit floats, failing with the structured "not divisible
by 4" error exactly when the decoded byte count is not a multiple of
four; and with neither representation present, decoding fails with the
structured neither-representation error. -/
theorem embedding_decode_spec (fv : FeatureVector) :
    (fv.float_array ≠ [] → embedding_vector fv = Except.ok fv.float_array) ∧
    (∀ decoded, fv.float_array = [] → fv.base64_array ≠ "" →
      base64_standard_decode fv.base64_array = some decoded →
      (decoded.length % 4 = 0 → embedding_vector fv = Except.ok (le_words decoded)) ∧
      (decoded.length % 4 ≠ 0 →
        embedding_vector fv =
          Except.error (GrokError.invalidRequest
            "embedding byte length not divisible by 4"))) ∧
    (fv.float_array = [] → fv.base64_array = "" →
      embedding_vector fv =
        Except.error (GrokError.invalidRequest
          "embedding had neither float nor base64 array")) := by
  refine ⟨?_, ?_, ?_⟩
  · intro h
    simp [embedding_vector, h]
  · intro decoded hfloat hb64 hdec
    constructor
    · intro hlen
      simp [embedding_vector, hfloat, hb64, decode_base64_embedding, hdec, hlen]
    · intro hlen
      simp [embedding_vector, hfloat, hb64, decode_base64_embedding, hdec, hlen]
  · intro hfloat hb64
    simp [embedding_vector, hfloat, hb64]

/-- C2 witness: the four cases of `embedding_decode_spec` on concrete
feature vectors — a direct float array; the 12-character base64 string
decoding to 8 zero bytes, yielding the two zero-pattern floats; the
12-character base64 string decoding to 7 bytes, yielding the structured
"not divisible by 4" error; and the neither-representation error. -/
theorem embedding_decode_spec_witness :
    embedding_vector { float_array := [42], base64_array := "" } = Except.ok [42] ∧
    embedding_vector { float_array := [], base64_array := "AAAAAAAAAAA=" } =
      Except.ok [0, 0] ∧
    embedding_vector { float_array := [], base64_array := "AAAAAAAAAA==" } =
      Except.error (GrokError.invalidRequest
        "embedding byte length not divisible by 4") ∧
    embedding_vector { float_array := [], base64_array := "" } =
      Except.error (GrokError.invalidRequest
        "embedding had neither float nor base64 array") := by
  refine ⟨?_, ?_, ?_, ?_⟩
  · exact (embedding_decode_spec _).1 (by decide)
  · exact ((embedding_decode_spec _).2.1 [0, 0, 0, 0, 0, 0, 0, 0] rfl (by decide)
      (by decide)).1 (by decide)
  · exact ((embedding_decode_spec _).2.1 [0, 0, 0, 0, 0, 0, 0] rfl (by decide)
      (by decide)).2 (by decide)
  · exact (embedding_decode_spec _).2.2 rfl rfl

/-- Polling a pending wire reply yields `Ok(None)`. -/
theorem poll_deferred_pending : poll_deferred pendingReply = Except.ok none := rfl

/-- Helper: a successful scripted run — pending replies followed by a
done-with-payload reply — returns the assembled payload, for any
starting elapsed time that keeps every deadline check within the
timeout, issuing one poll per scripted reply and sleeping after each
pending one. -/
theorem wait_for_deferred_from_success (poll_interval timeout : Nat)
    (cr : GetChatCompletionResponse) (resp : ChatResponse)
    (hcr : proto_to_response cr = Except.ok resp) :
    ∀ k elapsed, elapsed + k * poll_interval ≤ timeout →
      wait_for_deferred_from (List.replicate k pendingReply ++ [doneReply cr])
          poll_interval timeout elapsed
        = (WaitOutcome.success resp, k + 1, k) := by
  intro k
  induction k with
  | zero =>
      intro elapsed h
      have h0 : ¬ elapsed > timeout := by omega
      rw [List.replicate, List.nil_append, wait_for_deferred_from.eq_def]
      simp [h0, poll_deferred, doneReply, DeferredStatus.toWire,
        DeferredStatus.tryFrom, hcr]
  | succ k ih =>
      intro elapsed h
      rw [Nat.succ_mul] at h
      have h0 : ¬ elapsed > timeout := by omega
      have hrec := ih (elapsed + poll_interval) (by omega)
      rw [List.replicate_succ, List.cons_append, wait_for_deferred_from.eq_def]
      simp only [h0, if_false, poll_deferred_pending, hrec]

/-- Helper: a run over pending-only replies whose cumulative sleep
passes the deadline fails with the structured "timed out" error at the
first deadline check that trips, and the polls stop there: the number of
polls issued (each followed by one sleep) is the number of checks that
passed, every one of them within the timeout. -/
theorem wait_for_deferred_from_timeout (poll_interval timeout : Nat) :
    ∀ m elapsed, timeout < elapsed + m * poll_interval →
      ∃ polls, polls ≤ m ∧
        wait_for_deferred_from (List.replicate m pendingReply)
            poll_interval timeout elapsed
          = (WaitOutcome.failure (GrokError.invalidRequest "Deferred request timed out"),
             polls, polls) ∧
        timeout < elapsed + polls * poll_interval ∧
        ∀ i < polls, elapsed + i * poll_interval ≤ timeout := by
  intro m
  induction m with
  | zero =>
      intro elapsed h
      rw [Nat.zero_mul, Nat.add_zero] at h
      refine ⟨0, Nat.le_refl 0, ?_, by omega, fun i hi => absurd hi (Nat.not_lt_zero i)⟩
      rw [List.replicate, wait_for_deferred_from.eq_def]
      simp [h]
  | succ m ih =>
      intro elapsed h
      by_cases he : elapsed > timeout
      · refine ⟨0, Nat.zero_le _, ?_, by omega, fun i hi => absurd hi (Nat.not_lt_zero i)⟩
        rw [wait_for_deferred_from.eq_def]
        simp [he]
      · rw [Nat.succ_mul] at h
        obtain ⟨polls, hle, heq, hgt, hall⟩ := ih (elapsed + poll_interval) (by omega)
        refine ⟨polls + 1, Nat.succ_le_succ hle, ?_, ?_, ?_⟩
        · rw [List.replicate_succ, wait_for_deferred_from.eq_def]
          simp only [he, if_false, poll_deferred_pending, heq]
        · rw [Nat.succ_mul]
          omega
        · intro i hi
          cases i with
          | zero => simpa using Nat.le_of_not_lt he
          | succ i =>
              have := hall i (Nat.lt_of_succ_lt_succ hi)
              rw [Nat.succ_mul]
              omega

/-- C1: the poller temporal contract.  (1) A script of `k` pending
replies followed by a done reply whose payload assembles to `resp`,
with all `k+1` deadline checks within the timeout
(`k * poll_interval ≤ timeout`), returns the payload after exactly
`k + 1` polls and `k` sleeps.  (2) A script of pending replies whose
cumulative sleeps pass the deadline fails with the structured
"timed out" error; the number of polls issued is the number of deadline
checks that passed (each within the timeout, the next one past it), so
no further scripted replies are ever polled after the deadline.  (3) A
script whose first reply is `Expired` fails at once with the structured
expiry error after one poll and zero sleeps. -/
theorem wait_for_deferred_temporal :
    (∀ (k poll_interval timeout : Nat) (cr : GetChatCompletionResponse)
        (resp : ChatResponse),
      k * poll_interval ≤ timeout →
      proto_to_response cr = Except.ok resp →
      wait_for_deferred (List.replicate k pendingReply ++ [doneReply cr])
          poll_interval timeout
        = (WaitOutcome.success resp, k + 1, k)) ∧
    (∀ (m poll_interval timeout : Nat),
      timeout < m * poll_interval →
      ∃ polls, polls ≤ m ∧
        wait_for_deferred (List.replicate m pendingReply) poll_interval timeout
          = (WaitOutcome.failure (GrokError.invalidRequest "Deferred request timed out"),
             polls, polls) ∧
        timeout < polls * poll_interval ∧
        ∀ i < polls, i * poll_interval ≤ timeout) ∧
    (∀ (rest : List GetDeferredResponse) (poll_interval timeout : Nat),
      wait_for_deferred (expiredReply :: rest) poll_interval timeout
        = (WaitOutcome.failure (GrokError.invalidRequest "Deferred request has expired"),
           1, 0)) := by
  refine ⟨?_, ?_, ?_⟩
  · intro k poll_interval timeout cr resp hk hcr
    exact wait_for_deferred_from_success poll_interval timeout cr resp hcr k 0
      (by omega)
  · intro m poll_interval timeout hm
    obtain ⟨polls, hle, heq, hgt, hall⟩ :=
      wait_for_deferred_from_timeout poll_interval timeout m 0 (by omega)
    exact ⟨polls, hle, heq, by simpa using hgt, fun i hi => by simpa using hall i hi⟩
  · intro rest poll_interval timeout
    rw [wait_for_deferred, wait_for_deferred_from.eq_def]
    simp [poll_deferred, expiredReply, DeferredStatus.toWire, DeferredStatus.tryFrom]

/-- C1 witness: the three scenarios of `wait_for_deferred_temporal` at
concrete inputs — two pendings then done with interval 1 and timeout 5
returns the assembled payload after 3 polls and 2 sleeps; pending-only
with interval 2 passing timeout 3 times out after at most 3 polls; an
immediate expired reply fails with 1 poll and 0 sleeps. -/
theorem wait_for_deferred_temporal_witness :
    wait_for_deferred (List.replicate 2 pendingReply ++ [doneReply sampleCompletion]) 1 5
      = (WaitOutcome.success sampleResponse, 3, 2) ∧
    (∃ polls, polls ≤ 3 ∧
      wait_for_deferred (List.replicate 3 pendingReply) 2 3
        = (WaitOutcome.failure (GrokError.invalidRequest "Deferred request timed out"),
           polls, polls)) ∧
    wait_for_deferred (expiredReply :: [pendingReply]) 1 5
      = (WaitOutcome.failure (GrokError.invalidRequest "Deferred request has expired"),
         1, 0) := by
  refine ⟨?_, ?_, ?_⟩
  · exact wait_for_deferred_temporal.1 2 1 5 sampleCompletion sampleResponse
      (by decide) rfl
  · obtain ⟨polls, hle, heq, -, -⟩ := wait_for_deferred_temporal.2.1 3 2 3 (by decide)
    exact ⟨polls, hle, heq⟩
  · exact wait_for_deferred_temporal.2.2 [pendingReply] 1 5

/-- C7: terminal poll results.  A wire reply marked `Done` with no
payload surfaces the structured protocol-contract-violation error; an
`Expired` reply and a reply whose status code is unrecognized (or the
explicit invalid code) surface their structured errors, whatever payload
they carry; and any reply whose poll fails is terminal for the waiting
loop — the loop returns that error after that single poll, with no
further polls and no sleep, regardless of the remaining script. -/
theorem poll_deferred_terminal :
    poll_deferred { status := DeferredStatus.done.toWire, response := none }
      = Except.error (GrokError.invalidRequest
          "Deferred request marked as done but no response") ∧
    (∀ r, poll_deferred { status := DeferredStatus.expired.toWire, response := r }
      = Except.error (GrokError.invalidRequest "Deferred request has expired")) ∧
    (∀ v r, DeferredStatus.tryFrom v = none →
      poll_deferred { status := v, response := r }
        = Except.error (GrokError.invalidRequest "Invalid deferred status")) ∧
    (∀ r, poll_deferred { status := DeferredStatus.invalidDeferredStatus.toWire,
                          response := r }
      = Except.error (GrokError.invalidRequest "Invalid deferred status")) ∧
    (∀ reply rest poll_interval timeout e,
      poll_deferred reply = Except.error e →
      wait_for_deferred (reply :: rest) poll_interval timeout
        = (WaitOutcome.failure e, 1, 0)) := by
  refine ⟨rfl, ?_, ?_, ?_, ?_⟩
  · intro r
    simp [poll_deferred, DeferredStatus.toWire, DeferredStatus.tryFrom]
  · intro v r h
    simp [poll_deferred, h]
  · intro r
    simp [poll_deferred, DeferredStatus.toWire, DeferredStatus.tryFrom]
  · intro reply rest poll_interval timeout e h
    rw [wait_for_deferred, wait_for_deferred_from.eq_def]
    simp [h]

/-- C7 witness: the terminal failures of `poll_deferred_terminal` at
concrete inputs — expired with no payload, the unrecognized status code
99, the invalid code 0, and a done-without-payload reply aborting the
waiting loop after exactly one poll despite a pending reply remaining in
the script. -/
theorem poll_deferred_terminal_witness :
    poll_deferred { status := 3, response := none }
      = Except.error (GrokError.invalidRequest "Deferred request has expired") ∧
    poll_deferred { status := 99, response := none }
      = Except.error (GrokError.invalidRequest "Invalid deferred status") ∧
    poll_deferred { status := 0, response := none }
      = Except.error (GrokError.invalidRequest "Invalid deferred status") ∧
    wait_for_deferred
        ({ status := DeferredStatus.done.toWire, response := none } :: [pendingReply]) 1 5
      = (WaitOutcome.failure (GrokError.invalidRequest
          "Deferred request marked as done but no response"), 1, 0) :=
  ⟨poll_deferred_terminal.2.1 none,
   poll_deferred_terminal.2.2.1 99 none (by decide),
   poll_deferred_terminal.2.2.2.1 none,
   poll_deferred_terminal.2.2.2.2 _ [pendingReply] 1 5 _ rfl⟩

/-- Helper: clamping a finite value that already lies inside the finite
rational bounds is the identity. -/
theorem F32.clamp_fixed (r lo hi : ℚ) (h1 : lo ≤ r) (h2 : r ≤ hi) :
    F32.clamp (F32.fin r) (F32.fin lo) (F32.fin hi) = F32.fin r := by
  simp [F32.clamp, F32.lt, not_lt.mpr h1, not_lt.mpr h2]

/-- Helper: for finite rational bounds `lo ≤ hi`, clamping any non-NaN
input produces a finite value inside `[lo, hi]`. -/
theorem F32.clamp_cases (x : F32) (lo hi : ℚ) (hlohi : lo ≤ hi) (hx : x ≠ F32.nan) :
    ∃ r : ℚ, F32.clamp x (F32.fin lo) (F32.fin hi) = F32.fin r ∧ lo ≤ r ∧ r ≤ hi := by
  cases x with
  | nan => exact absurd rfl hx
  | negInf =>
      refine ⟨lo, ?_, le_refl lo, hlohi⟩
      simp [F32.clamp, F32.lt, not_lt.mpr hlohi]
  | posInf =>
      refine ⟨hi, ?_, hlohi, le_refl hi⟩
      simp [F32.clamp, F32.lt]
  | fin q =>
      by_cases hq1 : q < lo
      · refine ⟨lo, ?_, le_refl lo, hlohi⟩
        simp [F32.clamp, F32.lt, hq1, not_lt.mpr hlohi]
      · by_cases hq2 : hi < q
        · refine ⟨hi, ?_, hlohi, le_refl hi⟩
          simp [F32.clamp, F32.lt, hq1, hq2]
        · refine ⟨q, ?_, le_of_not_lt hq1, le_of_not_lt hq2⟩
          exact F32.clamp_fixed q lo hi (le_of_not_lt hq1) (le_of_not_lt hq2)

/-- Helper: clamping to finite rational bounds `lo ≤ hi` is idempotent
on every input, NaN included (NaN falls through both comparisons of both
applications). -/
theorem F32.clamp_idem (x : F32) (lo hi : ℚ) (hlohi : lo ≤ hi) :
    F32.clamp (F32.clamp x (F32.fin lo) (F32.fin hi)) (F32.fin lo) (F32.fin hi)
      = F32.clamp x (F32.fin lo) (F32.fin hi) := by
  by_cases hx : x = F32.nan
  · subst hx
    rfl
  · obtain ⟨r, hr, h1, h2⟩ := F32.clamp_cases x lo hi hlohi hx
    rw [hr, F32.clamp_fixed r lo hi h1 h2]

/-- C8 counterexample: the claim quantifies over every float input, but
`f32::clamp` propagates NaN: setting the temperature (or top-p) to NaN
stores NaN, which under the IEEE order is not within `[0, 2]` (resp.
`[0, 1]`) — both range comparisons are false — so a downstream consumer
can observe an out-of-range stored value. -/
theorem temperature_nan_out_of_range :
    (ChatRequest.new.with_temperature F32.nan).temperature = some F32.nan ∧
    F32.le (F32.fin 0) F32.nan = false ∧
    F32.le F32.nan (F32.fin 2) = false ∧
    (ChatRequest.new.with_top_p F32.nan).top_p = some F32.nan :=
  ⟨rfl, rfl, rfl, rfl⟩

/-- C8 amended: for every non-NaN float input, the temperature setter
stores a value in `[0.0, 2.0]` and the top-p setter stores a value in
`[0.0, 1.0]` (a NaN input stores NaN); clamping to either range is
idempotent on all inputs, NaN included, and re-setting the temperature
to its stored value leaves the request unchanged. -/
theorem clamped_setters (req : ChatRequest) (x : F32) :
    (x ≠ F32.nan →
      (∃ y, (req.with_temperature x).temperature = some y ∧
        F32.le (F32.fin 0) y = true ∧ F32.le y (F32.fin 2) = true) ∧
      (∃ y, (req.with_top_p x).top_p = some y ∧
        F32.le (F32.fin 0) y = true ∧ F32.le y (F32.fin 1) = true)) ∧
    F32.clamp (F32.clamp x (F32.fin 0) (F32.fin 2)) (F32.fin 0) (F32.fin 2)
      = F32.clamp x (F32.fin 0) (F32.fin 2) ∧
    F32.clamp (F32.clamp x (F32.fin 0) (F32.fin 1)) (F32.fin 0) (F32.fin 1)
      = F32.clamp x (F32.fin 0) (F32.fin 1) ∧
    (req.with_temperature x).with_temperature (F32.clamp x (F32.fin 0) (F32.fin 2))
      = req.with_temperature x := by
  refine ⟨?_, F32.clamp_idem x 0 2 (by norm_num), F32.clamp_idem x 0 1 (by norm_num), ?_⟩
  · intro hx
    constructor
    · obtain ⟨r, hr, h1, h2⟩ := F32.clamp_cases x 0 2 (by norm_num) hx
      exact ⟨F32.fin r, by simp [ChatRequest.with_temperature, hr],
        by simp [F32.le, h1], by simp [F32.le, h2]⟩
    · obtain ⟨r, hr, h1, h2⟩ := F32.clamp_cases x 0 1 (by norm_num) hx
      exact ⟨F32.fin r, by simp [ChatRequest.with_top_p, hr],
        by simp [F32.le, h1], by simp [F32.le, h2]⟩
  · simp [ChatRequest.with_temperature, F32.clamp_idem x 0 2 (by norm_num)]

/-- C8 witness: `clamped_setters` at the concrete over-range input 5 —
the stored temperature is in `[0, 2]` and clamping it again is a
no-op — and at NaN for the idempotence conjunct. -/
theorem clamped_setters_witness :
    (∃ y, (ChatRequest.new.with_temperature (F32.fin 5)).temperature = some y ∧
      F32.le (F32.fin 0) y = true ∧ F32.le y (F32.fin 2) = true) ∧
    F32.clamp (F32.clamp (F32.fin 5) (F32.fin 0) (F32.fin 2)) (F32.fin 0) (F32.fin 2)
      = F32.clamp (F32.fin 5) (F32.fin 0) (F32.fin 2) ∧
    F32.clamp (F32.clamp F32.nan (F32.fin 0) (F32.fin 2)) (F32.fin 0) (F32.fin 2)
      = F32.clamp F32.nan (F32.fin 0) (F32.fin 2) :=
  ⟨((clamped_setters ChatRequest.new (F32.fin 5)).1 (by decide)).1,
   (clamped_setters ChatRequest.new (F32.fin 5)).2.1,
   (clamped_setters ChatRequest.new F32.nan).2.1⟩

end XaiGrpc
